import Mathlib

/-!
Shallow embedding of the `smart-emerge-starter` service (src/main.go) — a
GraphQL front-end over a single Postgres table `patients`:

  CREATE TABLE patients (
    id SERIAL PRIMARY KEY,
    name TEXT NOT NULL,
    email TEXT UNIQUE NOT NULL,
    phone TEXT NOT NULL
  );

The database state is the list of rows together with the SERIAL counter.
Each resolver of `main.go` is embedded as a function on that state.  A
resolver in the Go code returns a pair `(interface{}, error)` to the
graphql-go engine, or never returns at all because `logFatal` calls
`log.Fatal` on a non-nil storage error and terminates the process; the
`RunResult` type below records both possibilities.  The storage layer's
possible request-time errors are modelled by `DBError`: the `sql.ErrNoRows`
result of `QueryRow.Scan` on an empty result set, the Postgres
`unique_violation` raised by the UNIQUE constraint on `email`, and any
other storage failure (e.g. a broken connection).
-/

set_option autoImplicit false

namespace SmartEmerge

/-- The `Patient` struct of `main.go` (fields `ID`, `Name`, `Email`, `Phone`). -/
structure Patient where
  id : Int
  name : String
  email : String
  phone : String
  deriving Repr, DecidableEq

/-- State of the `patients` table: the rows in insertion order, and the next
value of the SERIAL sequence backing the `id` column. -/
structure DBState where
  rows : List Patient
  nextId : Int
  deriving Repr, DecidableEq

/-- Request-time storage errors: `sql.ErrNoRows` from `QueryRow.Scan`,
the Postgres `unique_violation` (23505) from the UNIQUE constraint on
`email`, and any other storage failure (connection loss etc.). -/
inductive DBError where
  | noRows
  | uniqueViolation
  | connFailure
  deriving Repr, DecidableEq

/-- The Go `interface{}` value a resolver hands back to the graphql engine:
the literal `nil` (the `delete` resolver), a single `Patient`, or a slice of
patients (`getPatients`; graphql-go completes both the nil slice and a
non-empty slice to a GraphQL list, never to null). -/
inductive GoValue where
  | vnil
  | vpatient (p : Patient)
  | vpatients (ps : List Patient)
  deriving Repr, DecidableEq

/-- Outcome of running one resolver: either it returns a `(value, err)` pair
to the graphql engine with the database left in state `s`, or `logFatal`
fired on storage error `e` and the process terminated with the database in
state `s`. -/
inductive RunResult where
  | ok (value : GoValue) (err : Option DBError) (s : DBState)
  | fatal (e : DBError) (s : DBState)
  deriving Repr, DecidableEq

/-- The database state after the resolver ran (for a fatal outcome, the
state at the moment the process died). -/
def RunResult.state : RunResult → DBState
  | .ok _ _ s => s
  | .fatal _ s => s

/-- The value component returned to the graphql engine, if the resolver
returned at all. -/
def RunResult.retVal : RunResult → Option GoValue
  | .ok v _ _ => some v
  | .fatal _ _ => none

/-- The error component returned to the graphql engine, if the resolver
returned at all (a `some` here would become a per-request GraphQL error
entry). -/
def RunResult.retErr : RunResult → Option DBError
  | .ok _ e _ => e
  | .fatal _ _ => none

/-- Whether the resolver run terminated the whole process via `logFatal`. -/
def RunResult.isFatal : RunResult → Bool
  | .ok _ _ _ => false
  | .fatal _ _ => true

/-! ## The store: per-statement Postgres semantics for the `patients` table -/

/-- `select id, name, email, phone from patients where id=$1` through
`QueryRow(...).Scan(...)`: the first matching row, or `sql.ErrNoRows`. -/
def sqlSelectById (rows : List Patient) (id : Int) : Except DBError Patient :=
  match rows.find? (fun r => r.id == id) with
  | some r => .ok r
  | none => .error .noRows

/-- `select * from patients` through `db.Query`: every row, in table order. -/
def sqlSelectAll (rows : List Patient) : Except DBError (List Patient) :=
  .ok rows

/-- `insert into patients(name, email, phone) values($1, $2, $3) returning id;`
— rejected by the UNIQUE constraint when `email` is already present,
otherwise the row is appended with the next SERIAL id, which is returned. -/
def sqlInsert (s : DBState) (name email phone : String) :
    Except DBError (Int × DBState) :=
  if s.rows.any (fun r => r.email == email) then
    .error .uniqueViolation
  else
    .ok (s.nextId, ⟨s.rows ++ [⟨s.nextId, name, email, phone⟩], s.nextId + 1⟩)

/-- `update patients set name = $1, email = $2, phone = $3 where id =$4`
through `Exec`: rewrites every row matching `id` (affecting zero rows, and
raising no error, when none matches), rejected by the UNIQUE constraint when
the new `email` belongs to a different row than the one being updated. -/
def sqlUpdate (s : DBState) (id : Int) (name email phone : String) :
    Except DBError DBState :=
  if s.rows.any (fun r => r.id == id) then
    if s.rows.any (fun r => r.id != id && r.email == email) then
      .error .uniqueViolation
    else
      .ok ⟨s.rows.map (fun r =>
        if r.id == id then ⟨r.id, name, email, phone⟩ else r), s.nextId⟩
  else
    .ok s

/-- `delete from patients where id = $1` through `Exec`: removes every
matching row; deleting a non-existent id affects zero rows and raises no
error. -/
def sqlDelete (s : DBState) (id : Int) : Except DBError DBState :=
  .ok ⟨s.rows.filter (fun r => r.id != id), s.nextId⟩

/-! ## Resolver cores

Each resolver of `main.go` follows the same pattern: run one statement, pass
its error (which is `nil` on success) to `logFatal` — which terminates the
process when the error is non-nil — then build the returned value and return
it with a `nil` error.  The `...Core` functions embed that pattern as a
function of the store's response, and the resolver proper plugs in the
semantics of its actual statement. -/

/-- The `getPatient` resolver body applied to the store's response:
`logFatal(err)` then `return patient, nil` (main.go lines 89-99). -/
def getPatientCore (s : DBState) (resp : Except DBError Patient) : RunResult :=
  match resp with
  | .ok p => .ok (.vpatient p) none s
  | .error e => .fatal e s

/-- `Query.getPatient(id)` (main.go lines 81-100). -/
def getPatient (s : DBState) (id : Int) : RunResult :=
  getPatientCore s (sqlSelectById s.rows id)

/-- The `getPatients` resolver body applied to the store's response:
`logFatal(err)` on the `db.Query` error, then scan all rows into the slice
and `return patients, nil` (main.go lines 104-121). -/
def getPatientsCore (s : DBState) (resp : Except DBError (List Patient)) :
    RunResult :=
  match resp with
  | .ok ps => .ok (.vpatients ps) none s
  | .error e => .fatal e s

/-- `Query.getPatients()` (main.go lines 101-122). -/
def getPatients (s : DBState) : RunResult :=
  getPatientsCore s (sqlSelectAll s.rows)

/-- The `create` resolver body applied to the store's response:
`logFatal(err)`, then the returned `Patient` is assembled from
`lastInsertID` and the argument values (main.go lines 147-169). -/
def createCore (s : DBState) (name email phone : String)
    (resp : Except DBError (Int × DBState)) : RunResult :=
  match resp with
  | .ok (lastInsertID, s') =>
      .ok (.vpatient ⟨lastInsertID, name, email, phone⟩) none s'
  | .error e => .fatal e s

/-- `Mutation.create(name!, email!, phone!)` (main.go lines 133-170). -/
def create (s : DBState) (name email phone : String) : RunResult :=
  createCore s name email phone (sqlInsert s name email phone)

/-- The `update` resolver body applied to the store's response:
`logFatal(err)` on the `Prepare`/`Exec` error, then the returned `Patient`
is assembled from the argument values, never re-read from the row
(main.go lines 188-207). -/
def updateCore (s : DBState) (id : Int) (name email phone : String)
    (resp : Except DBError DBState) : RunResult :=
  match resp with
  | .ok s' => .ok (.vpatient ⟨id, name, email, phone⟩) none s'
  | .error e => .fatal e s

/-- `Mutation.update(id!, name, email!, phone!)` (main.go lines 171-208).
`name` is a nullable GraphQL argument; when it is absent the Go type
assertion `params.Args["name"].(string)` yields the zero value `""`,
embedded here by `name?.getD ""`. -/
def update (s : DBState) (id : Int) (name? : Option String)
    (email phone : String) : RunResult :=
  let name := name?.getD ""
  updateCore s id name email phone (sqlUpdate s id name email phone)

/-- The `delete` resolver body applied to the store's response:
`logFatal(err)` on the `Prepare`/`Exec` error, then `return nil, nil`
(main.go lines 217-227). -/
def deleteCore (s : DBState) (resp : Except DBError DBState) : RunResult :=
  match resp with
  | .ok s' => .ok .vnil none s'
  | .error e => .fatal e s

/-- `Mutation.delete(id!)` (main.go lines 209-228). -/
def deleteP (s : DBState) (id : Int) : RunResult :=
  deleteCore s (sqlDelete s id)

/-! ## The SQL text each resolver sends to the store -/

/-- A bound parameter of a statement, as passed to `QueryRow`/`Exec`. -/
inductive SQLParam where
  | pint (i : Int)
  | pstr (s : String)
  deriving Repr, DecidableEq

/-- One statement as it reaches the store: the statement text and the bound
parameters, kept separate exactly as `database/sql` keeps them. -/
structure SQLCall where
  text : String
  params : List SQLParam
  deriving Repr, DecidableEq

/-- The statement `getPatient` issues for a given `id` argument
(main.go line 93). -/
def getPatientSQL (id : Int) : SQLCall :=
  ⟨"select id, name, email, phone from patients where id=$1", [.pint id]⟩

/-- The statement `getPatients` issues (main.go lines 107-108). -/
def getPatientsSQL : SQLCall :=
  ⟨"select * from patients", []⟩

/-- The statement `create` issues for given arguments (main.go lines
156-159). -/
def createSQL (name email phone : String) : SQLCall :=
  ⟨"insert into patients(name, email, phone) values($1, $2, $3) returning id;",
   [.pstr name, .pstr email, .pstr phone]⟩

/-- The statement `update` prepares and executes for given arguments
(main.go lines 195-198). -/
def updateSQL (id : Int) (name email phone : String) : SQLCall :=
  ⟨"update patients set name = $1, email = $2, phone = $3 where id =$4",
   [.pstr name, .pstr email, .pstr phone, .pint id]⟩

/-- The statement `delete` prepares and executes for a given `id` argument
(main.go lines 220-223). -/
def deleteSQL (id : Int) : SQLCall :=
  ⟨"delete from patients where id = $1", [.pint id]⟩

/-! ## Well-formedness of a database state -/

/-- Invariants Postgres maintains for the `patients` table: ids are unique
(PRIMARY KEY), emails are unique (UNIQUE), and every id already handed out
is below the SERIAL counter. -/
def WF (s : DBState) : Prop :=
  (s.rows.map Patient.id).Nodup ∧
  (s.rows.map Patient.email).Nodup ∧
  ∀ r ∈ s.rows, r.id < s.nextId

instance (s : DBState) : Decidable (WF s) := by
  unfold WF; infer_instance

/-! ## Claims -/

/-- C1: for every state in which the patients table is empty, the
`getPatients` query returns the empty list of patients — the value handed
to the graphql engine is the (empty) list constructor, not the nil value and
not an error, the returned error component is `none`, and the process is not
terminated. -/
theorem C1_getPatients_empty_table (s : DBState) (h : s.rows = []) :
    getPatients s = .ok (.vpatients []) none s := by
  simp [getPatients, getPatientsCore, sqlSelectAll, h]

/-- Witness for C1 at the empty database. -/
theorem C1_witness :
    (⟨[], 1⟩ : DBState).rows = [] ∧
    getPatients ⟨[], 1⟩ = .ok (.vpatients []) none ⟨[], 1⟩ :=
  ⟨rfl, C1_getPatients_empty_table ⟨[], 1⟩ rfl⟩

/-- C3 counterexample: the claim says an `update` on an id with no matching
row fails with a not-found error; on the empty table with id 1 the resolver
instead returns successfully — no fatal termination, no returned error — and
echoes a `Patient` built from the arguments.  The `where` clause of the
`update` statement matches nothing, `Exec` reports zero affected rows
without an error, and `logFatal(nil)` is a no-op. -/
theorem C3_counterexample :
    update ⟨[], 1⟩ 1 none "andrew@test.com" "890123490"
      = .ok (.vpatient ⟨1, "", "andrew@test.com", "890123490"⟩) none ⟨[], 1⟩ ∧
    (update ⟨[], 1⟩ 1 none "andrew@test.com" "890123490").isFatal = false ∧
    (update ⟨[], 1⟩ 1 none "andrew@test.com" "890123490").retErr = none := by
  decide

/-- C3 amended: for every id with no matching row in the patients table, the
`update` mutation succeeds — returning, with no error, a `Patient` built
from the argument values (name defaulting to `""` when omitted) — and leaves
every row of the table unchanged; no not-found error is surfaced. -/
theorem C3_update_missing_id (s : DBState) (id : Int) (n? : Option String)
    (e p : String) (h : ∀ r ∈ s.rows, r.id ≠ id) :
    update s id n? e p = .ok (.vpatient ⟨id, n?.getD "", e, p⟩) none s := by
  have hany : s.rows.any (fun r => r.id == id) = false := by
    rw [Bool.eq_false_iff]
    intro hc
    obtain ⟨r, hr, hrid⟩ := List.any_eq_true.mp hc
    exact h r hr (by simpa using hrid)
  simp [update, updateCore, sqlUpdate, hany]

/-- Witness for C3 amended: updating id 5, which is absent from a one-row
table, succeeds and changes nothing. -/
theorem C3_witness :
    update ⟨[⟨1, "John", "johne@test.com", "12345678"⟩], 2⟩ 5 none "e@x" "7"
      = .ok (.vpatient ⟨5, "", "e@x", "7"⟩) none
          ⟨[⟨1, "John", "johne@test.com", "12345678"⟩], 2⟩ :=
  C3_update_missing_id ⟨[⟨1, "John", "johne@test.com", "12345678"⟩], 2⟩ 5
    none "e@x" "7" (by decide)

/-- C2: once a `create` with email `e` has succeeded, a second `create`
with the same email fails with the unique-violation (conflict) error raised
by the UNIQUE constraint on `email` — the resolver hands that error to
`logFatal` — and the table is left exactly as the first call left it: the
failing call's final state still holds exactly one row with email `e`. -/
theorem C2_duplicate_email_conflict (s s' : DBState) (n e p n2 p2 : String)
    (v : GoValue) (err : Option DBError)
    (h : create s n e p = .ok v err s') :
    create s' n2 e p2 = .fatal .uniqueViolation s' ∧
    ((create s' n2 e p2).state.rows.filter (fun r => r.email == e)).length = 1 := by
  unfold create createCore sqlInsert at h
  by_cases hc : s.rows.any (fun r => r.email == e) = true
  · rw [if_pos hc] at h
    exact absurd h (by simp)
  · rw [Bool.not_eq_true] at hc
    rw [if_neg (by simp [hc])] at h
    have hnil : s.rows.filter (fun r => r.email == e) = [] :=
      List.filter_eq_nil_iff.mpr (fun a ha hae =>
        Bool.false_ne_true (hc ▸ List.any_eq_true.mpr ⟨a, ha, hae⟩))
    obtain ⟨-, -, hs⟩ := RunResult.ok.inj h
    subst hs
    constructor
    · simp [create, createCore, sqlInsert, List.any_append]
    · simp [create, createCore, sqlInsert, List.any_append, RunResult.state,
        List.filter_append, hnil]

/-- Witness for C2: after creating the first patient with email `"b"` on the
empty database, a second create with email `"b"` dies with the unique
violation and the table still holds exactly one row with that email. -/
theorem C2_witness :
    create ⟨[⟨1, "a", "b", "c"⟩], 2⟩ "x" "b" "y"
      = .fatal .uniqueViolation ⟨[⟨1, "a", "b", "c"⟩], 2⟩ ∧
    ((create ⟨[⟨1, "a", "b", "c"⟩], 2⟩ "x" "b" "y").state.rows.filter
      (fun r => r.email == "b")).length = 1 :=
  C2_duplicate_email_conflict ⟨[], 1⟩ ⟨[⟨1, "a", "b", "c"⟩], 2⟩
    "a" "b" "c" "x" "y" (.vpatient ⟨1, "a", "b", "c"⟩) none (by decide)

/-- C4: creating a patient with an email no existing row carries returns a
`Patient` whose id is the fresh SERIAL value — an id no existing row uses —
and whose name, email and phone are exactly the arguments; a subsequent
`getPatient` on the post-create state with that id returns the identical
field values. -/
theorem C4_create_roundtrip (s : DBState) (n e p : String)
    (hwf : WF s) (hfresh : ∀ r ∈ s.rows, r.email ≠ e) :
    (∀ r ∈ s.rows, r.id ≠ s.nextId) ∧
    create s n e p
      = .ok (.vpatient ⟨s.nextId, n, e, p⟩) none (create s n e p).state ∧
    getPatient (create s n e p).state s.nextId
      = .ok (.vpatient ⟨s.nextId, n, e, p⟩) none (create s n e p).state := by
  obtain ⟨-, -, hlt⟩ := hwf
  have hfreshId : ∀ r ∈ s.rows, r.id ≠ s.nextId := fun r hr => ne_of_lt (hlt r hr)
  have hany : s.rows.any (fun r => r.email == e) = false := by
    rw [← Bool.not_eq_true, List.any_eq_true]
    rintro ⟨r, hr, hre⟩
    exact hfresh r hr (by simpa using hre)
  have hnone : s.rows.find? (fun r => r.id == s.nextId) = none :=
    List.find?_eq_none.mpr (fun r hr hre => hfreshId r hr (by simpa using hre))
  refine ⟨hfreshId, ?_, ?_⟩
  · simp [create, createCore, sqlInsert, hany, RunResult.state]
  · simp [create, createCore, sqlInsert, hany, RunResult.state,
      getPatient, getPatientCore, sqlSelectById, List.find?_append, hnone]

/-- Witness for C4 on a one-row table: the freshly created patient gets the
fresh id 2 and a `getPatient 2` round-trips the created field values. -/
theorem C4_witness :
    create ⟨[⟨1, "John", "johne@test.com", "12345678"⟩], 2⟩
        "Andrew" "andrew@test.com" "890123490"
      = .ok (.vpatient ⟨2, "Andrew", "andrew@test.com", "890123490"⟩) none
          (create ⟨[⟨1, "John", "johne@test.com", "12345678"⟩], 2⟩
            "Andrew" "andrew@test.com" "890123490").state ∧
    getPatient (create ⟨[⟨1, "John", "johne@test.com", "12345678"⟩], 2⟩
        "Andrew" "andrew@test.com" "890123490").state 2
      = .ok (.vpatient ⟨2, "Andrew", "andrew@test.com", "890123490"⟩) none
          (create ⟨[⟨1, "John", "johne@test.com", "12345678"⟩], 2⟩
            "Andrew" "andrew@test.com" "890123490").state :=
  ⟨(C4_create_roundtrip ⟨[⟨1, "John", "johne@test.com", "12345678"⟩], 2⟩
      "Andrew" "andrew@test.com" "890123490" (by decide) (by decide)).2.1,
   (C4_create_roundtrip ⟨[⟨1, "John", "johne@test.com", "12345678"⟩], 2⟩
      "Andrew" "andrew@test.com" "890123490" (by decide) (by decide)).2.2⟩

/-- C5: deleting an id that has a matching row removes every row with that
id — the resulting table is the original filtered to the other ids — and
returns the Go nil payload with a nil error rather than the deleted record;
a subsequent `getPatient` on that id receives `sql.ErrNoRows` and dies in
`logFatal` with the not-found (`noRows`) error. -/
theorem C5_delete_then_getPatient (s : DBState) (id : Int)
    (_h : ∃ r ∈ s.rows, r.id = id) :
    deleteP s id
      = .ok .vnil none ⟨s.rows.filter (fun r => r.id != id), s.nextId⟩ ∧
    (∀ r ∈ (deleteP s id).state.rows, r.id ≠ id) ∧
    getPatient (deleteP s id).state id
      = .fatal .noRows (deleteP s id).state := by
  refine ⟨rfl, ?_, ?_⟩
  · intro r hr
    have := (List.mem_filter.mp hr).2
    simpa using this
  · have hnone :
        ((s.rows.filter (fun r => r.id != id)).find? (fun r => r.id == id))
          = none := by
      rw [List.find?_eq_none]
      intro r hr hre
      have hne := (List.mem_filter.mp hr).2
      simp at hne hre
      exact hne hre
    simp [getPatient, getPatientCore, sqlSelectById, RunResult.state,
      deleteP, deleteCore, sqlDelete, hnone]

/-- Witness for C5: deleting id 1 from a one-row table, then fetching id 1,
kills the process with the no-rows error. -/
theorem C5_witness :
    getPatient (deleteP ⟨[⟨1, "John", "johne@test.com", "12345678"⟩], 2⟩ 1).state 1
      = .fatal .noRows
          (deleteP ⟨[⟨1, "John", "johne@test.com", "12345678"⟩], 2⟩ 1).state :=
  (C5_delete_then_getPatient ⟨[⟨1, "John", "johne@test.com", "12345678"⟩], 2⟩ 1
    (by decide)).2.2

/-- C6: in the original implementation every request-time storage error in
the resolvers terminates the whole process rather than being returned as a
per-request GraphQL error entry: each resolver core maps any storage error
`e` — including the `noRows` error `getPatient` receives when no row
matches — to `RunResult.fatal`, and on every possible store response the
error component a resolver returns to the graphql engine is `none`.  The
final conjunct records that `getPatient` is exactly its core applied to the
row lookup, so a missing row (lookup result `.error .noRows`) is covered by
the first conjunct. -/
theorem C6_storage_errors_fatal :
    ∀ (s : DBState) (e : DBError) (n em p : String) (id : Int),
    getPatientCore s (.error e) = .fatal e s ∧
    getPatientsCore s (.error e) = .fatal e s ∧
    createCore s n em p (.error e) = .fatal e s ∧
    updateCore s id n em p (.error e) = .fatal e s ∧
    deleteCore s (.error e) = .fatal e s ∧
    (∀ resp, (getPatientCore s resp).retErr = none) ∧
    (∀ resp, (getPatientsCore s resp).retErr = none) ∧
    (∀ resp, (createCore s n em p resp).retErr = none) ∧
    (∀ resp, (updateCore s id n em p resp).retErr = none) ∧
    (∀ resp, (deleteCore s resp).retErr = none) ∧
    getPatient s id = getPatientCore s (sqlSelectById s.rows id) :=
  fun s e n em p id =>
    ⟨rfl, rfl, rfl, rfl, rfl,
     fun resp => by cases resp <;> rfl,
     fun resp => by cases resp <;> rfl,
     fun resp => by cases resp with | ok v => exact (by cases v; rfl) | error => rfl,
     fun resp => by cases resp <;> rfl,
     fun resp => by cases resp <;> rfl,
     rfl⟩

/-- C7: for every resolver the SQL statement text sent to the store is a
fixed string constant, independent of the argument values, and the argument
values travel only in the bound-parameter list, never spliced into the
text. -/
theorem C7_sql_text_constant :
    ∀ (id id2 : Int) (n e p n2 e2 p2 : String),
    (getPatientSQL id).text = (getPatientSQL id2).text ∧
    (createSQL n e p).text = (createSQL n2 e2 p2).text ∧
    (updateSQL id n e p).text = (updateSQL id2 n2 e2 p2).text ∧
    (deleteSQL id).text = (deleteSQL id2).text ∧
    (getPatientSQL id).text
      = "select id, name, email, phone from patients where id=$1" ∧
    getPatientsSQL.text = "select * from patients" ∧
    getPatientsSQL.params = [] ∧
    (createSQL n e p).text
      = "insert into patients(name, email, phone) values($1, $2, $3) returning id;" ∧
    (updateSQL id n e p).text
      = "update patients set name = $1, email = $2, phone = $3 where id =$4" ∧
    (deleteSQL id).text = "delete from patients where id = $1" ∧
    (getPatientSQL id).params = [.pint id] ∧
    (createSQL n e p).params = [.pstr n, .pstr e, .pstr p] ∧
    (updateSQL id n e p).params = [.pstr n, .pstr e, .pstr p, .pint id] ∧
    (deleteSQL id).params = [.pint id] :=
  fun _ _ _ _ _ _ _ _ =>
    ⟨rfl, rfl, rfl, rfl, rfl, rfl, rfl, rfl, rfl, rfl, rfl, rfl, rfl, rfl⟩

/-- Helper: `update` outcome when some row matches the id but the new email
collides with a different row — the unique violation kills the process with
the table untouched. -/
theorem update_eq_of_conflict (s : DBState) (id : Int) (n? : Option String)
    (e p : String)
    (h1 : s.rows.any (fun r => r.id == id) = true)
    (h2 : s.rows.any (fun r => r.id != id && r.email == e) = true) :
    update s id n? e p = .fatal .uniqueViolation s := by
  simp [update, updateCore, sqlUpdate, h1, h2]

/-- Helper: `update` outcome when some row matches the id and the new email
collides with no other row — the matching rows are rewritten in place. -/
theorem update_eq_of_match (s : DBState) (id : Int) (n? : Option String)
    (e p : String)
    (h1 : s.rows.any (fun r => r.id == id) = true)
    (h2 : s.rows.any (fun r => r.id != id && r.email == e) = false) :
    update s id n? e p
      = .ok (.vpatient ⟨id, n?.getD "", e, p⟩) none
          ⟨s.rows.map (fun r =>
            if r.id = id then ⟨r.id, n?.getD "", e, p⟩ else r), s.nextId⟩ := by
  simp [update, updateCore, sqlUpdate, h1, h2]

/-- Helper: `update` outcome when no row matches the id — the statement
affects zero rows, raises no error, and the resolver still echoes the
arguments. -/
theorem update_eq_of_nomatch (s : DBState) (id : Int) (n? : Option String)
    (e p : String)
    (h1 : s.rows.any (fun r => r.id == id) = false) :
    update s id n? e p = .ok (.vpatient ⟨id, n?.getD "", e, p⟩) none s := by
  simp [update, updateCore, sqlUpdate, h1]

/-- C8: the `update` resolver never changes the `id` column: whatever
outcome an update run has, the list of ids of the table (in order) is
unchanged, the rows whose id differs from the argument id are exactly the
untouched original rows, and a row carrying the argument id is either the
rewrite of the matching row — same id, with only name, email and phone
replaced by the argument values — or an original row left untouched by a
failed or no-op run. -/
theorem C8_update_preserves_ids (s : DBState) (id : Int) (n? : Option String)
    (e p : String) :
    (update s id n? e p).state.rows.map Patient.id = s.rows.map Patient.id ∧
    (∀ r, (r ∈ (update s id n? e p).state.rows ∧ r.id ≠ id)
        ↔ (r ∈ s.rows ∧ r.id ≠ id)) ∧
    (∀ r, r ∈ (update s id n? e p).state.rows → r.id = id →
        r = ⟨id, n?.getD "", e, p⟩ ∨ r ∈ s.rows) := by
  by_cases h1 : s.rows.any (fun r => r.id == id) = true
  · by_cases h2 : s.rows.any (fun r => r.id != id && r.email == e) = true
    · rw [update_eq_of_conflict s id n? e p h1 h2]
      exact ⟨rfl, fun r => Iff.rfl, fun r hr _ => Or.inr hr⟩
    · rw [Bool.not_eq_true] at h2
      rw [update_eq_of_match s id n? e p h1 h2]
      simp only [RunResult.state]
      refine ⟨?_, ?_, ?_⟩
      · rw [List.map_map]
        refine List.map_congr_left (fun a _ => ?_)
        by_cases hb : a.id = id <;> simp [hb]
      · intro r
        constructor
        · rintro ⟨hm, hne⟩
          obtain ⟨a, ha, rfl⟩ := List.mem_map.mp hm
          by_cases hb : a.id = id
          · exfalso
            exact hne (by simp [hb])
          · refine ⟨?_, hne⟩
            simpa [hb] using ha
        · rintro ⟨hm, hne⟩
          refine ⟨List.mem_map.mpr ⟨r, hm, ?_⟩, hne⟩
          simp [hne]
      · intro r hm hid
        obtain ⟨a, ha, rfl⟩ := List.mem_map.mp hm
        by_cases hb : a.id = id
        · left
          simp [hb]
        · right
          simpa [hb] using ha
  · rw [Bool.not_eq_true] at h1
    rw [update_eq_of_nomatch s id n? e p h1]
    exact ⟨rfl, fun r => Iff.rfl, fun r hr _ => Or.inr hr⟩

/-- C9: whenever the `update` resolver returns (rather than dying in
`logFatal`), the returned value is a `Patient` assembled from the argument
values — id, the name argument with the Go zero value `""` substituted when
the nullable `name` argument was omitted, email and phone — never re-read
from the database row, the returned error is nil, and when `name` was
omitted the row stored under the argument id has its name overwritten with
`""`, not preserved. -/
theorem C9_update_echoes_args (s : DBState) (id : Int) (n? : Option String)
    (e p : String) (v : GoValue) (err : Option DBError) (s' : DBState)
    (h : update s id n? e p = .ok v err s') :
    v = .vpatient ⟨id, n?.getD "", e, p⟩ ∧ err = none ∧
    (n? = none → ∀ r ∈ s'.rows, r.id = id → r.name = "") := by
  by_cases h1 : s.rows.any (fun r => r.id == id) = true
  · by_cases h2 : s.rows.any (fun r => r.id != id && r.email == e) = true
    · rw [update_eq_of_conflict s id n? e p h1 h2] at h
      exact absurd h (by simp)
    · rw [Bool.not_eq_true] at h2
      rw [update_eq_of_match s id n? e p h1 h2] at h
      obtain ⟨hv, herr, hs⟩ := RunResult.ok.inj h
      subst hs
      refine ⟨hv.symm, herr.symm, ?_⟩
      rintro rfl r hm hid
      obtain ⟨a, ha, rfl⟩ := List.mem_map.mp hm
      by_cases hb : a.id = id
      · simp [hb]
      · rw [if_neg (by simpa using hb)] at hid
        exact absurd hid hb
  · rw [Bool.not_eq_true] at h1
    rw [update_eq_of_nomatch s id n? e p h1] at h
    obtain ⟨hv, herr, hs⟩ := RunResult.ok.inj h
    subst hs
    refine ⟨hv.symm, herr.symm, ?_⟩
    rintro rfl r hm hid
    have hc : s.rows.any (fun r => r.id == id) = true :=
      List.any_eq_true.mpr ⟨r, hm, by simpa using hid⟩
    rw [h1] at hc
    exact absurd hc (by simp)

/-- Witness for C9: updating id 1 of a one-row table with the name argument
omitted succeeds, overwrites the stored name `"John"` with `""`, and the
returned patient is built from the arguments, not from the old row. -/
theorem C9_witness :
    update ⟨[⟨1, "John", "johne@test.com", "12345678"⟩], 2⟩ 1 none
        "johne@test.com" "999"
      = .ok (.vpatient ⟨1, "", "johne@test.com", "999"⟩) none
          ⟨[⟨1, "", "johne@test.com", "999"⟩], 2⟩ ∧
    (.vpatient ⟨1, "", "johne@test.com", "999"⟩ : GoValue)
      = .vpatient ⟨1, (none : Option String).getD "", "johne@test.com", "999"⟩ :=
  ⟨by decide,
   (C9_update_echoes_args ⟨[⟨1, "John", "johne@test.com", "12345678"⟩], 2⟩ 1
      none "johne@test.com" "999"
      (.vpatient ⟨1, "", "johne@test.com", "999"⟩) none
      ⟨[⟨1, "", "johne@test.com", "999"⟩], 2⟩ (by decide)).1⟩

/-- C10: for every database state and every id, the `delete` resolver
returns the Go nil payload with a nil error and never terminates the
process, and the returned payload and error are identical across any two
calls — in particular identical whether or not a row with the id exists —
so a caller cannot distinguish a deletion from a no-op on a missing id. -/
theorem C10_delete_indistinguishable (s s2 : DBState) (id id2 : Int) :
    (deleteP s id).retVal = some .vnil ∧
    (deleteP s id).retErr = none ∧
    (deleteP s id).isFatal = false ∧
    (deleteP s id).retVal = (deleteP s2 id2).retVal ∧
    (deleteP s id).retErr = (deleteP s2 id2).retErr :=
  ⟨rfl, rfl, rfl, rfl, rfl⟩

end SmartEmerge
